import Mathlib

/-!
Verification of the fraud-dashboard enrichment/scoring pipeline (src/app.py)
against its natural-language specification.

Numeric model: pandas/NumPy float columns are modelled over the reals, with
IEEE-754 NaN modelled as `none : Option ℝ` (any comparison against `none`
is false, matching `NaN > x = False`; arithmetic on `none` propagates `none`).
Date parsing (`pd.to_datetime(..., errors='coerce')`) is modelled by an
abstract parse function `String → Option DT`, `none` standing for `NaT`.
-/

open Real

/-- A parsed datetime: `day` is the day count since an epoch (what the
`.dt.days` of a timedelta sees), `hour` is the hour-of-day component
(what `.dt.hour` extracts). -/
structure DT where
  day : ℤ
  hour : ℕ
deriving DecidableEq, Repr

/-- A raw CSV row of `data.csv`, with the columns `load_data` reads.
Date-typed columns are kept as the raw strings the CSV holds. -/
structure Raw where
  trans_date_trans_time : String
  category : String
  amt : ℝ
  lat : ℝ
  long : ℝ
  merch_lat : ℝ
  merch_long : ℝ
  dob : String
  is_fraud : Bool

/-- A row after the enrichment part of `load_data` (lines 28–42 of
src/app.py): the raw fields plus `hour`, `age` (both `none` when their
source date failed to parse, as with `errors='coerce'`) and `dist_km`. -/
structure Enriched where
  trans_date_trans_time : String
  category : String
  amt : ℝ
  lat : ℝ
  long : ℝ
  merch_lat : ℝ
  merch_long : ℝ
  dob : String
  is_fraud : Bool
  hour : Option ℕ
  age : Option ℤ
  dist_km : ℝ

/-- `np.radians`: degrees to radians. -/
noncomputable def radians (x : ℝ) : ℝ := x * (Real.pi / 180)

/-- The inner `haversine` function of `load_data` (src/app.py lines 34–40),
transcribed clause by clause: `r = 6371`, `phi1, phi2 = radians(lat1),
radians(lat2)`, `dphi = radians(lat2 - lat1)`, `dlambda = radians(lon2 - lon1)`,
`a = sin(dphi/2)**2 + cos(phi1)*cos(phi2)*sin(dlambda/2)**2`,
result `2 * r * arcsin(sqrt(a))`. -/
noncomputable def haversine (lat1 lon1 lat2 lon2 : ℝ) : ℝ :=
  let r : ℝ := 6371
  let phi1 := radians lat1
  let phi2 := radians lat2
  let dphi := radians (lat2 - lat1)
  let dlambda := radians (lon2 - lon1)
  let a := Real.sin (dphi / 2) ^ 2 +
    Real.cos phi1 * Real.cos phi2 * Real.sin (dlambda / 2) ^ 2
  2 * r * Real.arcsin (Real.sqrt a)

/-- The spec's haversine formula, written from the spec's words (§4.1):
"a = sin²(Δφ/2) + cos(φ1)·cos(φ2)·sin²(Δλ/2), distance_km = 2·r·asin(sqrt(a)),
where φ are latitudes and λ are longitudes in radians, Δφ = φ2−φ1,
Δλ = λ2−λ1", radius 6371 km. -/
noncomputable def haversineSpec (lat1 lon1 lat2 lon2 : ℝ) : ℝ :=
  let r : ℝ := 6371
  let phi1 := lat1 * (Real.pi / 180)
  let phi2 := lat2 * (Real.pi / 180)
  let lam1 := lon1 * (Real.pi / 180)
  let lam2 := lon2 * (Real.pi / 180)
  let a := Real.sin ((phi2 - phi1) / 2) ^ 2 +
    Real.cos phi1 * Real.cos phi2 * Real.sin ((lam2 - lam1) / 2) ^ 2
  2 * r * Real.arcsin (Real.sqrt a)

/-- Enrichment of one row (src/app.py lines 28–42): `hour` from the parsed
timestamp, `age = (datetime.now() - dob).dt.days // 365` (Python `//` is
floor division, hence `Int.fdiv`), `dist_km = haversine(lat, long,
merch_lat, merch_long)`. `parse` models `pd.to_datetime(·, dayfirst=True,
errors='coerce')` and `now` is the day of `datetime.now()`. -/
noncomputable def enrich (parse : String → Option DT) (now : ℤ) (r : Raw) : Enriched :=
  { trans_date_trans_time := r.trans_date_trans_time
    category := r.category
    amt := r.amt
    lat := r.lat
    long := r.long
    merch_lat := r.merch_lat
    merch_long := r.merch_long
    dob := r.dob
    is_fraud := r.is_fraud
    hour := (parse r.trans_date_trans_time).map DT.hour
    age := (parse r.dob).map (fun d => Int.fdiv (now - d.day) 365)
    dist_km := haversine r.lat r.long r.merch_lat r.merch_long }

/-- The enrichment stage over a whole batch, preserving row order
(pandas column assignments are row-wise over the frame). -/
noncomputable def loadData (parse : String → Option DT) (now : ℤ)
    (rows : List Raw) : List Enriched :=
  rows.map (enrich parse now)

/-- `Series.mean()`: `NaN` on an empty series, else the arithmetic mean. -/
noncomputable def listMean (xs : List ℝ) : Option ℝ :=
  if xs.length = 0 then none else some (xs.sum / xs.length)

/-- `Series.std()` with pandas' default `ddof = 1` (sample standard
deviation): `NaN` when fewer than two values, else
`sqrt(Σ (x − mean)² / (n − 1))`. -/
noncomputable def listSampleStd (xs : List ℝ) : Option ℝ :=
  if xs.length < 2 then none else
    some (Real.sqrt ((xs.map (fun x => (x - xs.sum / xs.length) ^ 2)).sum /
      (xs.length - 1)))

/-- The amounts of the rows of `batch` in category `c`: the group that
`df.groupby('category')['amt']` forms for key `c`. -/
def catAmts (batch : List Enriched) (c : String) : List ℝ :=
  (batch.filter (fun r => r.category == c)).map (fun r => r.amt)

/-- `avg_cat_amt` (src/app.py line 45): the per-category mean of `amt`,
broadcast to the row. -/
noncomputable def avgCatAmt (batch : List Enriched) (r : Enriched) : Option ℝ :=
  listMean (catAmts batch r.category)

/-- `std_cat_amt` (src/app.py line 46): the per-category sample standard
deviation of `amt` (`transform('std')`, `ddof = 1`), broadcast to the row:
`NaN` for a single-member category. -/
noncomputable def stdCatAmt (batch : List Enriched) (r : Enriched) : Option ℝ :=
  listSampleStd (catAmts batch r.category)

/-- `z_score_amt = (amt - avg_cat_amt) / std_cat_amt` (src/app.py line 47)
in float semantics: `NaN` when the stddev is `NaN`; when the stddev is `0`
the group is constant, the numerator is `0` for every in-group row, and
`0.0 / 0.0 = NaN`. There is no ε term in the source. -/
noncomputable def zScoreAmt (batch : List Enriched) (r : Enriched) : Option ℝ :=
  match avgCatAmt batch r, stdCatAmt batch r with
  | some m, some s => if s = 0 then none else some ((r.amt - m) / s)
  | _, _ => none

/-- `is_value_anomaly = z_score_amt > 2` (src/app.py line 48); a comparison
against `NaN` is false. -/
def optGT (o : Option ℝ) (t : ℝ) : Prop :=
  match o with
  | none => False
  | some v => v > t

/-- `is_value_anomaly` (src/app.py line 48). -/
noncomputable def isValueAnomaly (batch : List Enriched) (r : Enriched) : Prop :=
  optGT (zScoreAmt batch r) 2

/-- `dist_mean = df['dist_km'].mean()` (src/app.py line 51). -/
noncomputable def distMean (batch : List Enriched) : Option ℝ :=
  listMean (batch.map (fun r => r.dist_km))

/-- `dist_std = df['dist_km'].std()` (src/app.py line 52), sample stddev. -/
noncomputable def distStd (batch : List Enriched) : Option ℝ :=
  listSampleStd (batch.map (fun r => r.dist_km))

/-- `is_dist_anomaly = dist_km > (dist_mean + 2 * dist_std)` (src/app.py
line 53); when either statistic is `NaN` the threshold is `NaN` and the
strict comparison is false. -/
noncomputable def isDistAnomaly (batch : List Enriched) (r : Enriched) : Prop :=
  match distMean batch, distStd batch with
  | some m, some s => r.dist_km > m + 2 * s
  | _, _ => False

/-- A scored row as the filter sees it (src/app.py lines 63–69): the filter
reads only the `category` column and the two materialized anomaly flag
columns; the remaining columns ride along as row content. -/
structure ScoredRow where
  category : String
  amt : ℝ
  is_value_anomaly : Bool
  is_dist_anomaly : Bool

/-- The sidebar filter (src/app.py lines 67–69):
`df_filtered = df[df['category'].isin(categorias)]`, then, if the
anomalies-only checkbox is set,
`df_filtered = df_filtered[is_value_anomaly | is_dist_anomaly]`. -/
def dfFiltered (df : List ScoredRow) (categorias : List String)
    (anomaliasApenas : Bool) : List ScoredRow :=
  let d1 := df.filter (fun r => categorias.contains r.category)
  if anomaliasApenas then
    d1.filter (fun r => r.is_value_anomaly || r.is_dist_anomaly)
  else d1

/-- C6: the inner haversine of `load_data` computes exactly the spec's
formula — radius 6371, `a = sin²(Δφ/2) + cos φ1 · cos φ2 · sin²(Δλ/2)`,
`2·r·asin(√a)` with degree→radian conversion — for every input. -/
theorem haversine_eq_spec (lat1 lon1 lat2 lon2 : ℝ) :
    haversine lat1 lon1 lat2 lon2 = haversineSpec lat1 lon1 lat2 lon2 := by
  unfold haversine haversineSpec radians
  ring_nf

/-- C7: the distance function is symmetric, vanishes on the diagonal, and
the enriched `dist_km` of a row whose cardholder and merchant coordinates
coincide is exactly 0. -/
theorem haversine_symm_diag :
    (∀ lat1 lon1 lat2 lon2 : ℝ,
      haversine lat1 lon1 lat2 lon2 = haversine lat2 lon2 lat1 lon1) ∧
    (∀ lat lon : ℝ, haversine lat lon lat lon = 0) ∧
    (∀ (parse : String → Option DT) (now : ℤ) (r : Raw),
      r.lat = r.merch_lat → r.long = r.merch_long →
      (enrich parse now r).dist_km = 0) := by
  have hdiag : ∀ lat lon : ℝ, haversine lat lon lat lon = 0 := by
    intro lat lon
    unfold haversine radians
    simp
  refine ⟨?_, hdiag, ?_⟩
  · intro lat1 lon1 lat2 lon2
    unfold haversine radians
    dsimp only
    have h1 : (lat1 - lat2) * (Real.pi / 180) / 2 =
        -((lat2 - lat1) * (Real.pi / 180) / 2) := by ring
    have h2 : (lon1 - lon2) * (Real.pi / 180) / 2 =
        -((lon2 - lon1) * (Real.pi / 180) / 2) := by ring
    rw [h1, h2, Real.sin_neg, Real.sin_neg]
    ring_nf
  · intro parse now r h1 h2
    show haversine r.lat r.long r.merch_lat r.merch_long = 0
    rw [← h1, ← h2]
    exact hdiag r.lat r.long

/-- C7 witness: a concrete row with coinciding coordinates has
`dist_km = 0`. -/
theorem haversine_symm_diag_witness :
    (enrich (fun _ => none) 0
      { trans_date_trans_time := "t", category := "c", amt := 1,
        lat := 10, long := 20, merch_lat := 10, merch_long := 20,
        dob := "d", is_fraud := false }).dist_km = 0 :=
  haversine_symm_diag.2.2 (fun _ => none) 0 _ rfl rfl

/-- A concrete enriched row used in witnesses: category `c`, amount `a`,
distance `d`, all other fields inert. -/
noncomputable def mkE (c : String) (a d : ℝ) : Enriched :=
  { trans_date_trans_time := "", category := c, amt := a, lat := 0, long := 0,
    merch_lat := 0, merch_long := 0, dob := "", is_fraud := false,
    hour := none, age := none, dist_km := d }

/-- C4: both anomaly flags are one-sided strict threshold tests:
`is_value_anomaly` holds iff the z-score is a defined value strictly above
2 (so a z-score at most 2 — in particular any low outlier — is never
flagged), and, whenever the global distance statistics are defined,
`is_dist_anomaly` holds iff `dist_km > mean + 2·stddev`, with equality at
the threshold not flagged and any value strictly above it flagged. -/
theorem anomaly_flags_strict (batch : List Enriched) (r : Enriched) :
    (isValueAnomaly batch r ↔ ∃ v, zScoreAmt batch r = some v ∧ v > 2) ∧
    (∀ v, zScoreAmt batch r = some v → v ≤ 2 → ¬ isValueAnomaly batch r) ∧
    (∀ m s, distMean batch = some m → distStd batch = some s →
      ((isDistAnomaly batch r ↔ r.dist_km > m + 2 * s) ∧
       (r.dist_km = m + 2 * s → ¬ isDistAnomaly batch r) ∧
       (r.dist_km > m + 2 * s → isDistAnomaly batch r))) := by
  refine ⟨?_, ?_, ?_⟩
  · unfold isValueAnomaly optGT
    cases hz : zScoreAmt batch r with
    | none => simp
    | some v => simp
  · intro v hv hle
    unfold isValueAnomaly optGT
    rw [hv]
    simp only [gt_iff_lt, not_lt]
    exact hle
  · intro m s hm hs
    unfold isDistAnomaly
    rw [hm, hs]
    refine ⟨Iff.rfl, ?_, fun h => h⟩
    intro he
    simp only [gt_iff_lt, not_lt, he, le_refl]

/-- Witness batch for C4: one category `a`, amounts 0, 1, 2 and distances
0, 1, 2, so that mean = 1 and sample stddev = 1 for both statistics. -/
noncomputable def wbC4 : List Enriched := [mkE "a" 0 0, mkE "a" 1 1, mkE "a" 2 2]

/-- C4 witness: on the concrete three-row batch the distance statistics are
`mean = 1`, `stddev = 1`, and the characterization applies to the row with
distance 2. -/
theorem anomaly_flags_strict_witness :
    (isDistAnomaly wbC4 (mkE "a" 2 2) ↔ (mkE "a" 2 2).dist_km > 1 + 2 * 1) ∧
    ((mkE "a" 2 2).dist_km = 1 + 2 * 1 → ¬ isDistAnomaly wbC4 (mkE "a" 2 2)) ∧
    ((mkE "a" 2 2).dist_km > 1 + 2 * 1 → isDistAnomaly wbC4 (mkE "a" 2 2)) := by
  have hm : distMean wbC4 = some 1 := by
    unfold distMean listMean wbC4 mkE
    norm_num
  have hs : distStd wbC4 = some 1 := by
    unfold distStd listSampleStd wbC4 mkE
    norm_num
  exact (anomaly_flags_strict wbC4 (mkE "a" 2 2)).2.2 1 1 hm hs

/-- C10: on a batch with fewer than two rows the global distance sample
standard deviation is `NaN` (here `none`), the threshold is therefore
undefined, and the strict comparison flags no row, without error. -/
theorem small_batch_no_dist_anomaly (batch : List Enriched) (r : Enriched)
    (h : batch.length < 2) : distStd batch = none ∧ ¬ isDistAnomaly batch r := by
  have hs : distStd batch = none := by
    unfold distStd listSampleStd
    rw [if_pos]
    rwa [List.length_map]
  refine ⟨hs, ?_⟩
  unfold isDistAnomaly
  rw [hs]
  cases hm : distMean batch with
  | none => simp
  | some m => simp

/-- C10 witness: a one-row batch has `NaN` distance stddev and its row is
not distance-flagged. -/
theorem small_batch_no_dist_anomaly_witness :
    distStd [mkE "x" 0 5] = none ∧ ¬ isDistAnomaly [mkE "x" 0 5] (mkE "x" 0 5) :=
  small_batch_no_dist_anomaly [mkE "x" 0 5] (mkE "x" 0 5) (by simp)

/-- C1 counterexample: in a batch whose category `a` has a single member,
the source's z-score (line 47, no ε in the denominator, pandas sample
stddev) is `NaN` (`none`), not the defined finite value
`(amount − mean)/(stddev + ε)` that the claim asserts. -/
theorem zScore_eps_counterexample :
    zScoreAmt [mkE "a" 10 0] (mkE "a" 10 0) = none := by
  have hs : stdCatAmt [mkE "a" 10 0] (mkE "a" 10 0) = none := by
    simp [stdCatAmt, listSampleStd, catAmts, mkE]
  unfold zScoreAmt
  rw [hs]
  cases ha : avgCatAmt [mkE "a" 10 0] (mkE "a" 10 0) <;> simp

/-- C1 amended: `z_score_amt = (amt − category_mean) / category_stddev`
with pandas' sample standard deviation and no ε term; whenever the
stddev is `NaN` (single-member category) or `0` (zero variance) the
z-score is `NaN`, not a finite value. -/
theorem zScore_formula_no_eps (batch : List Enriched) (r : Enriched) :
    (∀ m s, avgCatAmt batch r = some m → stdCatAmt batch r = some s → s ≠ 0 →
      zScoreAmt batch r = some ((r.amt - m) / s)) ∧
    (stdCatAmt batch r = none ∨ stdCatAmt batch r = some 0 →
      zScoreAmt batch r = none) := by
  constructor
  · intro m s hm hs hs0
    unfold zScoreAmt
    rw [hm, hs]
    simp [hs0]
  · intro h
    unfold zScoreAmt
    rcases h with h | h <;> rw [h] <;>
      cases ha : avgCatAmt batch r <;> simp

/-- Witness batch for C1: category `a` with amounts 0, 1, 2
(mean 1, sample stddev 1). -/
noncomputable def wbC1 : List Enriched := [mkE "a" 0 0, mkE "a" 1 0, mkE "a" 2 0]

/-- C1 witness: on the concrete batch the amount-2 row's z-score is
`(2 − 1)/1`. -/
theorem zScore_formula_no_eps_witness :
    zScoreAmt wbC1 (mkE "a" 2 0) = some (((mkE "a" 2 0).amt - 1) / 1) := by
  have hc : catAmts wbC1 "a" = [0, 1, 2] := by
    simp [catAmts, wbC1, mkE]
  have hm : avgCatAmt wbC1 (mkE "a" 2 0) = some 1 := by
    unfold avgCatAmt listMean
    rw [show (mkE "a" 2 0).category = "a" from rfl, hc]
    norm_num
  have hs : stdCatAmt wbC1 (mkE "a" 2 0) = some 1 := by
    unfold stdCatAmt listSampleStd
    rw [show (mkE "a" 2 0).category = "a" from rfl, hc]
    norm_num
  exact (zScore_formula_no_eps wbC1 (mkE "a" 2 0)).1 1 1 hm hs (by norm_num)

/-- Witness batch for C3: a singleton category `solo` next to a two-member
category `o`. -/
noncomputable def wbC3 : List Enriched := [mkE "solo" 7 3, mkE "o" 1 0, mkE "o" 2 0]

/-- C3 counterexample: in the concrete batch the single member of category
`solo` does not have a z-score within tolerance 1/100 of 0 — its z-score is
`NaN` (`none`), so no defined value exists at all. -/
theorem single_member_z_counterexample :
    ¬ ∃ v, zScoreAmt wbC3 (mkE "solo" 7 3) = some v ∧ |v - 0| ≤ 1 / 100 := by
  have hs : stdCatAmt wbC3 (mkE "solo" 7 3) = none := by
    simp [stdCatAmt, listSampleStd, catAmts, wbC3, mkE]
  have hz : zScoreAmt wbC3 (mkE "solo" 7 3) = none := by
    unfold zScoreAmt
    rw [hs]
    cases ha : avgCatAmt wbC3 (mkE "solo" 7 3) <;> simp
  rw [hz]
  rintro ⟨v, hv, -⟩
  exact Option.noConfusion hv

/-- C3 amended: a row whose category has exactly one member gets a `NaN`
(`none`) z-score — not a value near 0 — and its `is_value_anomaly` flag is
false (the `NaN > 2` comparison is false). -/
theorem single_member_z_nan (batch : List Enriched) (r : Enriched)
    (h : (catAmts batch r.category).length = 1) :
    zScoreAmt batch r = none ∧ ¬ isValueAnomaly batch r := by
  have hs : stdCatAmt batch r = none := by
    unfold stdCatAmt listSampleStd
    rw [if_pos]
    omega
  have hz : zScoreAmt batch r = none := by
    unfold zScoreAmt
    rw [hs]
    cases ha : avgCatAmt batch r <;> simp
  refine ⟨hz, ?_⟩
  unfold isValueAnomaly
  rw [hz]
  exact fun h => h

/-- C3 witness: the `solo` row of the concrete batch has `NaN` z-score and
is not amount-flagged. -/
theorem single_member_z_nan_witness :
    zScoreAmt wbC3 (mkE "solo" 7 3) = none ∧ ¬ isValueAnomaly wbC3 (mkE "solo" 7 3) :=
  single_member_z_nan wbC3 (mkE "solo" 7 3) (by simp [catAmts, wbC3, mkE])

/-- The reference batch of C2: two `grocery` transactions of amounts 10
and 1010. -/
noncomputable def gbC2 : List Enriched := [mkE "grocery" 10 0, mkE "grocery" 1010 0]

/-- C2 counterexample: on the reference batch the computed category
standard deviation is not 500 — `transform('std')` uses the sample
(ddof = 1) formula, giving `sqrt 500000 = 500·√2 ≈ 707.1`, not the
population value 500 the claim asserts. -/
theorem grocery_std_counterexample :
    stdCatAmt gbC2 (mkE "grocery" 1010 0) ≠ some 500 := by
  have hc : catAmts gbC2 "grocery" = [10, 1010] := by
    simp [catAmts, gbC2, mkE]
  have he : stdCatAmt gbC2 (mkE "grocery" 1010 0) = some (Real.sqrt 500000) := by
    unfold stdCatAmt listSampleStd
    rw [show (mkE "grocery" 1010 0).category = "grocery" from rfl, hc]
    norm_num
  rw [he]
  intro h
  have h2 : Real.sqrt 500000 = 500 := Option.some.inj h
  have h3 : Real.sqrt 500000 ^ 2 = 500000 := Real.sq_sqrt (by norm_num)
  rw [h2] at h3
  norm_num at h3

/-- C2 amended: on the reference batch the category mean is 510 but the
computed standard deviation is the sample value `500·√2` (≈ 707.1), so the
amount-1010 row's z-score is `√2/2` (≈ 0.707, not ≈ 1.0); it is still not
flagged as an amount anomaly. -/
theorem grocery_example_sample_std :
    avgCatAmt gbC2 (mkE "grocery" 1010 0) = some 510 ∧
    stdCatAmt gbC2 (mkE "grocery" 1010 0) = some (500 * Real.sqrt 2) ∧
    zScoreAmt gbC2 (mkE "grocery" 1010 0) = some (Real.sqrt 2 / 2) ∧
    Real.sqrt 2 / 2 < 1 ∧
    ¬ isValueAnomaly gbC2 (mkE "grocery" 1010 0) := by
  have hc : catAmts gbC2 "grocery" = [10, 1010] := by
    simp [catAmts, gbC2, mkE]
  have hm : avgCatAmt gbC2 (mkE "grocery" 1010 0) = some 510 := by
    unfold avgCatAmt listMean
    rw [show (mkE "grocery" 1010 0).category = "grocery" from rfl, hc]
    norm_num
  have hsq : Real.sqrt 500000 = 500 * Real.sqrt 2 := by
    rw [show (500000:ℝ) = 500 ^ 2 * 2 by norm_num,
      Real.sqrt_mul (by positivity), Real.sqrt_sq (by norm_num)]
  have hs : stdCatAmt gbC2 (mkE "grocery" 1010 0) = some (500 * Real.sqrt 2) := by
    unfold stdCatAmt listSampleStd
    rw [show (mkE "grocery" 1010 0).category = "grocery" from rfl, hc, ← hsq]
    norm_num
  have h2 : Real.sqrt 2 * Real.sqrt 2 = 2 := Real.mul_self_sqrt (by norm_num)
  have hspos : (0:ℝ) < 500 * Real.sqrt 2 := by positivity
  have hz : zScoreAmt gbC2 (mkE "grocery" 1010 0) = some (Real.sqrt 2 / 2) := by
    unfold zScoreAmt
    rw [hm, hs]
    dsimp only
    rw [if_neg hspos.ne']
    congr 1
    rw [show (mkE "grocery" 1010 0).amt = 1010 from rfl,
      div_eq_div_iff hspos.ne' (by norm_num)]
    nlinarith [h2]
  have hlt : Real.sqrt 2 / 2 < 1 := by nlinarith [h2, Real.sqrt_nonneg 2]
  refine ⟨hm, hs, hz, hlt, ?_⟩
  unfold isValueAnomaly
  rw [hz]
  show ¬ (Real.sqrt 2 / 2 > 2)
  push_neg
  nlinarith [h2, Real.sqrt_nonneg 2]

/-- Forget the `age` field of an enriched row (the one field computed from
`datetime.now()`). -/
noncomputable def eraseAge (e : Enriched) : Enriched := { e with age := none }

/-- A parse function sending every date string to the epoch (day 0). -/
def parseEpoch : String → Option DT := fun _ => some ⟨0, 0⟩

/-- A concrete raw row for the C5 counterexample. -/
noncomputable def rawC5 : Raw :=
  { trans_date_trans_time := "x", category := "c", amt := 1, lat := 0,
    long := 0, merch_lat := 0, merch_long := 0, dob := "d", is_fraud := false }

/-- C5 counterexample: the transform reads the wall clock
(`datetime.now()`, src/app.py line 31), so two runs of `load_data` on the
same input batch at evaluation days 365 and 730 disagree — the derived
`age` field of the same row is 1 in the first run and 2 in the second. -/
theorem loadData_clock_counterexample :
    loadData parseEpoch 365 [rawC5] ≠ loadData parseEpoch 730 [rawC5] := by
  intro h
  have h2 := congrArg (fun l => l.map (fun e => e.age)) h
  simp [loadData, enrich, parseEpoch] at h2

/-- C5 amended: `load_data` is a deterministic function of the input batch
and the evaluation instant; only the `age` field depends on the instant, so
two runs at arbitrary instants agree on every other derived field —
`hour`, `dist_km`, the category amount groups, every z-score and both
anomaly flags. Bit-identical output across runs holds only for a fixed
evaluation instant. -/
theorem loadData_deterministic_mod_age (parse : String → Option DT)
    (now1 now2 : ℤ) (rows : List Raw) :
    (loadData parse now1 rows).map eraseAge =
      (loadData parse now2 rows).map eraseAge ∧
    (∀ c, catAmts (loadData parse now1 rows) c =
      catAmts (loadData parse now2 rows) c) ∧
    (loadData parse now1 rows).map (fun e => e.dist_km) =
      (loadData parse now2 rows).map (fun e => e.dist_km) ∧
    (∀ r, zScoreAmt (loadData parse now1 rows) r =
        zScoreAmt (loadData parse now2 rows) r ∧
      (isValueAnomaly (loadData parse now1 rows) r ↔
        isValueAnomaly (loadData parse now2 rows) r) ∧
      (isDistAnomaly (loadData parse now1 rows) r ↔
        isDistAnomaly (loadData parse now2 rows) r)) := by
  have hcat : ∀ c, catAmts (loadData parse now1 rows) c =
      catAmts (loadData parse now2 rows) c := by
    intro c
    unfold catAmts loadData
    rw [List.filter_map, List.filter_map, List.map_map, List.map_map]
    rfl
  have hdist : (loadData parse now1 rows).map (fun e => e.dist_km) =
      (loadData parse now2 rows).map (fun e => e.dist_km) := by
    unfold loadData
    rw [List.map_map, List.map_map]
    rfl
  have hz : ∀ r, zScoreAmt (loadData parse now1 rows) r =
      zScoreAmt (loadData parse now2 rows) r := by
    intro r
    unfold zScoreAmt avgCatAmt stdCatAmt
    rw [hcat r.category]
  refine ⟨?_, hcat, hdist, ?_⟩
  · unfold loadData
    rw [List.map_map, List.map_map]
    rfl
  · intro r
    refine ⟨hz r, ?_, ?_⟩
    · unfold isValueAnomaly
      rw [hz r]
    · unfold isDistAnomaly distMean distStd
      rw [hdist]

/-- C8: the sidebar filter selects exactly the rows satisfying
`category ∈ selected ∧ (¬anomalies_only ∨ some flag set)`; it is a stable
filter (its output is a sublist of the input, so relative order is kept and
the input list itself is untouched); the full category set with
`anomalies_only = false` returns the batch unchanged, and an empty category
set returns the empty list. -/
theorem dfFiltered_spec (df : List ScoredRow) (categorias : List String)
    (b : Bool) :
    dfFiltered df categorias b =
      df.filter (fun r => categorias.contains r.category &&
        (!b || r.is_value_anomaly || r.is_dist_anomaly)) ∧
    (dfFiltered df categorias b).Sublist df ∧
    ((∀ r ∈ df, categorias.contains r.category = true) →
      dfFiltered df categorias false = df) ∧
    dfFiltered df [] b = [] := by
  have h1 : dfFiltered df categorias b =
      df.filter (fun r => categorias.contains r.category &&
        (!b || r.is_value_anomaly || r.is_dist_anomaly)) := by
    cases b
    · simp [dfFiltered]
    · simp only [dfFiltered, if_pos, List.filter_filter, Bool.not_true,
        Bool.false_or]
      exact List.filter_congr (fun r _ => by rw [Bool.and_comm])
  refine ⟨h1, ?_, ?_, ?_⟩
  · rw [h1]
    exact List.filter_sublist df
  · intro hall
    simp only [dfFiltered, if_neg (by simp : ¬ (false : Bool) = true)]
    exact List.filter_eq_self.mpr hall
  · cases b <;> simp [dfFiltered]

/-- Witness batch for C8: two scored rows in categories `a` and `b`. -/
noncomputable def dfC8 : List ScoredRow :=
  [⟨"a", 5, true, false⟩, ⟨"b", 7, false, false⟩]

/-- C8 witness: filtering the concrete batch by its full category set with
the anomalies-only flag off returns the batch itself. -/
theorem dfFiltered_spec_witness :
    dfFiltered dfC8 ["a", "b"] false = dfC8 :=
  (dfFiltered_spec dfC8 ["a", "b"] false).2.2.1 (by
    intro r hr
    rcases List.mem_cons.mp hr with h | hr2
    · subst h; rfl
    · rcases List.mem_cons.mp hr2 with h | hr3
      · subst h; rfl
      · exact absurd hr3 (List.not_mem_nil r))

/-- C9: enrichment maps each input row to its enriched row in place — the
output has the same length and the `i`-th output row is the enrichment of
the `i`-th input row — and a row whose date-of-birth (resp. timestamp)
string fails to parse is retained with a `none` age (resp. hour) rather
than dropped. -/
theorem enrich_preserves_rows (parse : String → Option DT) (now : ℤ)
    (rows : List Raw) :
    (loadData parse now rows).length = rows.length ∧
    (∀ i : ℕ, (loadData parse now rows)[i]? = rows[i]?.map (enrich parse now)) ∧
    (∀ r : Raw, parse r.dob = none → (enrich parse now r).age = none) ∧
    (∀ r : Raw, parse r.trans_date_trans_time = none →
      (enrich parse now r).hour = none) := by
  refine ⟨?_, ?_, ?_, ?_⟩
  · simp [loadData]
  · intro i
    simp [loadData]
  · intro r h
    simp [enrich, h]
  · intro r h
    simp [enrich, h]

/-- A parse function on which every date string fails (`NaT`). -/
def parseNone : String → Option DT := fun _ => none

/-- A concrete raw row with unparsable date fields for the C9 witness. -/
noncomputable def rawC9 : Raw :=
  { trans_date_trans_time := "bad", category := "c", amt := 1, lat := 0,
    long := 0, merch_lat := 0, merch_long := 0, dob := "worse",
    is_fraud := false }

/-- C9 witness: a one-row batch whose dates fail to parse keeps its length
and gets `none` for age and hour. -/
theorem enrich_preserves_rows_witness :
    (loadData parseNone 0 [rawC9]).length = [rawC9].length ∧
    (enrich parseNone 0 rawC9).age = none ∧
    (enrich parseNone 0 rawC9).hour = none :=
  ⟨(enrich_preserves_rows parseNone 0 [rawC9]).1,
   (enrich_preserves_rows parseNone 0 [rawC9]).2.2.1 rawC9 rfl,
   (enrich_preserves_rows parseNone 0 [rawC9]).2.2.2 rawC9 rfl⟩
